import Mathlib

/-!
Verification of the VulkanToolkit repository's shader-reflection and
utility-function specification, as a shallow embedding in Lean 4.

Sources embedded from `src/`:
  * `src/src/vk/misc/Utils.cpp`: `is_depth_format`, `is_stencil_format`,
    `format_to_aspect_mask`, `sample_count_to_flags`.
  * `src/src/vk/wrappers/Swapchain.cpp`: `select_swapchain_present_mode`.
  * `src/include/ShaderModule.h`: the `PushConstant`, `StageInput` and
    `Descriptor` records and the class's public accessor surface.

The body of `ShaderModule::performReflection` is declared in
`src/include/ShaderModule.h` but its translation unit is not part of the
repository snapshot; the reflection pipeline below is therefore modelled
from the specification (each such definition is marked
`Modelled from the spec:`).
-/

namespace VulkanToolkit

/-! ## Utils.cpp: formats and aspect masks

`vk::Format` is a C++ enumeration whose enumerators are integer constants;
we embed it as `Nat` together with the named constants that
`Utils.cpp` mentions (values follow the Vulkan headers). -/

/-- The `vk::Format` enumeration, embedded as its underlying integer. -/
abbrev Format : Type := Nat

def eUndefined : Format := 0
def eB8G8R8A8Unorm : Format := 44
def eD16Unorm : Format := 124
def eD32Sfloat : Format := 126
def eD16UnormS8Uint : Format := 128
def eD24UnormS8Uint : Format := 129
def eD32SfloatS8Uint : Format := 130

/-- `vk::ImageAspectFlags` is a bitmask; embedded as `Nat` with bitwise or. -/
abbrev ImageAspectFlags : Type := Nat

def eColor : ImageAspectFlags := 1
def eDepth : ImageAspectFlags := 2
def eStencil : ImageAspectFlags := 4

/-- `plume::utils::is_depth_format` from `src/src/vk/misc/Utils.cpp`. -/
def is_depth_format (format : Format) : Bool :=
  format == eD16Unorm || format == eD16UnormS8Uint || format == eD24UnormS8Uint ||
    format == eD32Sfloat || format == eD32SfloatS8Uint

/-- `plume::utils::is_stencil_format` from `src/src/vk/misc/Utils.cpp`. -/
def is_stencil_format (format : Format) : Bool :=
  format == eD16UnormS8Uint || format == eD24UnormS8Uint || format == eD32SfloatS8Uint

/-- `plume::utils::format_to_aspect_mask` from `src/src/vk/misc/Utils.cpp`:
start from the depth bit for depth formats, or-in the stencil bit for
combined depth-stencil formats, and fall back to the color bit otherwise. -/
def format_to_aspect_mask (format : Format) : ImageAspectFlags :=
  if is_depth_format format then
    if is_stencil_format format then
      eDepth ||| eStencil
    else
      eDepth
  else
    eColor

/-! ## Utils.cpp: sample counts

`sample_count_to_flags` switches on the integer count; the `default` branch
emits a `PL_LOG_DEBUG` message and returns `vk::SampleCountFlagBits::e1`.
We embed the function together with the list of log lines it emits, so that
"silently defaults with a log message, not an error" is expressible. -/

/-- `vk::SampleCountFlagBits`, embedded as its underlying integer. -/
abbrev SampleCountFlagBits : Type := Nat

def sampleCount_e1 : SampleCountFlagBits := 1
def sampleCount_e2 : SampleCountFlagBits := 2
def sampleCount_e4 : SampleCountFlagBits := 4
def sampleCount_e8 : SampleCountFlagBits := 8
def sampleCount_e16 : SampleCountFlagBits := 16
def sampleCount_e32 : SampleCountFlagBits := 32
def sampleCount_e64 : SampleCountFlagBits := 64

/-- The debug line logged by the `default` branch of `sample_count_to_flags`. -/
def invalid_sample_count_message : String :=
  "The sample count passed to `sample_count_to_flags()` was invalid: returning vk::SampleCountFlagBits::e1\n"

/-- `plume::utils::sample_count_to_flags` from `src/src/vk/misc/Utils.cpp`.
The C++ `switch` dispatches on equality with the case labels; the result is
the returned flag paired with the list of log lines emitted. -/
def sample_count_to_flags (count : Nat) : SampleCountFlagBits × List String :=
  if count = 1 then (sampleCount_e1, [])
  else if count = 2 then (sampleCount_e2, [])
  else if count = 4 then (sampleCount_e4, [])
  else if count = 8 then (sampleCount_e8, [])
  else if count = 16 then (sampleCount_e16, [])
  else if count = 32 then (sampleCount_e32, [])
  else if count = 64 then (sampleCount_e64, [])
  else (sampleCount_e1, [invalid_sample_count_message])

/-! ## Swapchain.cpp: present-mode selection -/

/-- `vk::PresentModeKHR`, the four presentation modes named in
`src/src/vk/wrappers/Swapchain.cpp`. -/
inductive PresentModeKHR where
  | eImmediate
  | eMailbox
  | eFifo
  | eFifoRelaxed
deriving DecidableEq, Repr

/-- `Swapchain::select_swapchain_present_mode` from
`src/src/vk/wrappers/Swapchain.cpp`: scan the available modes, return
`eMailbox` as soon as it is found, otherwise fall back to `eFifo`. -/
def select_swapchain_present_mode (present_modes : List PresentModeKHR) : PresentModeKHR :=
  match present_modes with
  | [] => PresentModeKHR.eFifo
  | mode :: rest =>
      if mode = PresentModeKHR.eMailbox then mode
      else select_swapchain_present_mode rest

/-! ## ShaderModule.h: the reflection data model

The records below are translated field-for-field from the nested structs of
`vk::ShaderModule` in `src/include/ShaderModule.h`; `uint32_t` fields become
`Nat` and `std::string` fields become `String`. -/

/-- `VkDescriptorType`: the native descriptor-kind enumeration, restricted to
the kinds the reflection model can emit. -/
inductive VkDescriptorType where
  | eUniformBuffer
  | eStorageBuffer
  | eSampler
  | eCombinedImageSampler
  | eSampledImage
deriving DecidableEq, Repr

/-- `ShaderModule::PushConstant` from `src/include/ShaderModule.h`: one member
of a push-constant block. -/
structure PushConstant where
  index : Nat
  size : Nat
  offset : Nat
  name : String
deriving DecidableEq, Repr

/-- `ShaderModule::StageInput` from `src/include/ShaderModule.h`: one input to
a shader stage. -/
structure StageInput where
  layoutLocation : Nat
  size : Nat
  name : String
deriving DecidableEq, Repr

/-- `ShaderModule::Descriptor` from `src/include/ShaderModule.h`: one
descriptor declared in a GLSL shader. -/
structure Descriptor where
  layoutSet : Nat
  layoutBinding : Nat
  descriptorCount : Nat
  descriptorType : VkDescriptorType
  name : String
deriving DecidableEq, Repr

/-- The private data members of `vk::ShaderModule`
(`src/include/ShaderModule.h`, lines 91-97) that hold reflection results:
the SPIR-V words, the entry points, the stage inputs, the push constants and
the descriptors. The `VkShaderModule` handle is embedded as `Nat`. -/
structure ShaderModuleState where
  mShaderModuleHandle : Nat
  mShaderCode : List Nat
  mEntryPoints : List String
  mStageInputs : List StageInput
  mPushConstants : List PushConstant
  mDescriptors : List Descriptor
deriving DecidableEq, Repr

/-- The public member functions of `vk::ShaderModule` that return data
(`src/include/ShaderModule.h`, lines 71-83): `getHandle`, `getShaderCode`,
`getEntryPoints`, `getPushConstants` and `getDescriptors`. These five are
the entire public read surface of the class. -/
inductive ShaderModuleAccessor where
  | getHandle
  | getShaderCode
  | getEntryPoints
  | getPushConstants
  | getDescriptors
deriving DecidableEq, Repr

/-- The value an accessor can return: one constructor per C++ return type
appearing in the class's public surface, plus `stageInputList` for the
hypothetical `sequence<StageInput>` return type the specification ascribes
to an accessor `stage_inputs()`. -/
inductive AccessorValue where
  | handle (h : Nat)
  | wordList (ws : List Nat)
  | stringList (ss : List String)
  | pushConstantList (ps : List PushConstant)
  | descriptorList (ds : List Descriptor)
  | stageInputList (ss : List StageInput)
deriving DecidableEq, Repr

/-- Invoking one of the public accessors of `vk::ShaderModule` on a module
state, exactly as each inline body in `src/include/ShaderModule.h` reads the
corresponding private member. -/
def invokeAccessor (m : ShaderModuleState) : ShaderModuleAccessor → AccessorValue
  | ShaderModuleAccessor.getHandle => AccessorValue.handle m.mShaderModuleHandle
  | ShaderModuleAccessor.getShaderCode => AccessorValue.wordList m.mShaderCode
  | ShaderModuleAccessor.getEntryPoints => AccessorValue.stringList m.mEntryPoints
  | ShaderModuleAccessor.getPushConstants => AccessorValue.pushConstantList m.mPushConstants
  | ShaderModuleAccessor.getDescriptors => AccessorValue.descriptorList m.mDescriptors

/-- A sample module state whose stage-input collection is non-empty, used to
evaluate the accessor surface at a concrete point. -/
def sampleModuleState : ShaderModuleState :=
  { mShaderModuleHandle := 7
    mShaderCode := [119734787, 65536]
    mEntryPoints := ["main"]
    mStageInputs := [{ layoutLocation := 0, size := 12, name := "inPosition" }]
    mPushConstants := []
    mDescriptors := [] }

/-! ## The reflection pipeline

`ShaderModule::performReflection` is declared at `src/include/ShaderModule.h`
line 87, but its translation unit is absent from the repository snapshot, so
the pipeline is modelled from the specification (sections 3, 4.1, 6 and 7):
a closed variant set for the IR type system, a flat tagged declaration list,
structural validation producing `MalformedBinary`, and collection building
producing `UnsupportedConstruct` for unmodeled features. -/

/-- Modelled from the spec: the two fatal error classes of section 7 —
`MalformedBinary` (structural violation) and `UnsupportedConstruct`
(syntactically valid but unmodeled feature, carrying a string naming the
construct). -/
inductive ReflectError where
  | malformedBinary (msg : String)
  | unsupportedConstruct (construct : String)
deriving DecidableEq, Repr

/-- Modelled from the spec: the IR type system as the closed variant set of
section 9 — scalar, vector, matrix, array, runtime-array, struct, image,
sampler. Image dimensionality is kept as its raw integer code so that
unmodeled dimensionalities are expressible; `combined` records whether a
sampler is attached at the type level. -/
inductive SpirType where
  | scalar (byteSize : Nat)
  | vector (component : SpirType) (count : Nat)
  | matrix (column : SpirType) (columns : Nat)
  | array (elem : SpirType) (length : Nat)
  | runtimeArray (elem : SpirType)
  | struct (members : List SpirType)
  | image (dim : Nat) (combined : Bool)
  | sampler

/-- Modelled from the spec: the storage classes the reflector classifies
global variables by (section 4.1 step 3). Codes follow the SPIR-V storage
class enumeration. -/
inductive StorageClass where
  | input
  | output
  | uniform
  | storageBuffer
  | pushConstant
deriving DecidableEq, Repr

/-- Modelled from the spec: the flat, pre-resolved declaration list of
section 4.1 — entry-point declarations, global variable declarations,
decorations (location, descriptor set, binding, member byte offset) and the
optional debug-name table. -/
inductive Instruction where
  | opEntryPoint (epName : String)
  | opVariable (id : Nat) (storage : StorageClass) (ty : SpirType)
  | opDecorateLocation (target value : Nat)
  | opDecorateDescriptorSet (target value : Nat)
  | opDecorateBinding (target value : Nat)
  | opMemberDecorateOffset (target member value : Nat)
  | opName (target : Nat) (debugName : String)
  | opMemberName (target member : Nat) (debugName : String)

/-- Modelled from the spec: the container of section 6 — magic number,
version, bound, schema id, followed by a flat sequence of tagged
instructions. -/
structure ShaderBinary where
  magic : Nat
  version : Nat
  bound : Nat
  schema : Nat
  instructions : List Instruction

/-- A global variable declaration recovered from the binary. -/
structure GlobalVariable where
  id : Nat
  storage : StorageClass
  ty : SpirType

/-- The SPIR-V magic number, 0x07230203. -/
def spirvMagic : Nat := 0x07230203

/-- Modelled from the spec: the reflector accepts the SPIR-V 1.x version
words (major 1, minor 0 through 6). -/
def supported_version (v : Nat) : Bool :=
  0x00010000 ≤ v && v ≤ 0x00010600

/-- The global variable declarations of a binary, in declaration order. -/
def global_variables (B : ShaderBinary) : List GlobalVariable :=
  B.instructions.filterMap fun i =>
    match i with
    | Instruction.opVariable id storage ty => some ⟨id, storage, ty⟩
    | _ => none

/-- The declared entry-point names of a binary, in declaration order. -/
def entry_point_names (B : ShaderBinary) : List String :=
  B.instructions.filterMap fun i =>
    match i with
    | Instruction.opEntryPoint n => some n
    | _ => none

/-- The target ids referenced by decorations of the binary. -/
def decoration_targets (B : ShaderBinary) : List Nat :=
  B.instructions.filterMap fun i =>
    match i with
    | Instruction.opDecorateLocation t _ => some t
    | Instruction.opDecorateDescriptorSet t _ => some t
    | Instruction.opDecorateBinding t _ => some t
    | Instruction.opMemberDecorateOffset t _ _ => some t
    | _ => none

/-- The ids of the declared global variables. -/
def variable_ids (B : ShaderBinary) : List Nat :=
  (global_variables B).map GlobalVariable.id

/-- The location decoration attached to an id, if any (first match wins). -/
def find_location (B : ShaderBinary) (id : Nat) : Option Nat :=
  B.instructions.findSome? fun i =>
    match i with
    | Instruction.opDecorateLocation t v => if t = id then some v else none
    | _ => none

/-- The descriptor-set decoration attached to an id, if any. -/
def find_set (B : ShaderBinary) (id : Nat) : Option Nat :=
  B.instructions.findSome? fun i =>
    match i with
    | Instruction.opDecorateDescriptorSet t v => if t = id then some v else none
    | _ => none

/-- The binding decoration attached to an id, if any. -/
def find_binding (B : ShaderBinary) (id : Nat) : Option Nat :=
  B.instructions.findSome? fun i =>
    match i with
    | Instruction.opDecorateBinding t v => if t = id then some v else none
    | _ => none

/-- The explicit byte-offset decoration of member `member` of the block with
id `id`, if any. -/
def find_member_offset (B : ShaderBinary) (id member : Nat) : Option Nat :=
  B.instructions.findSome? fun i =>
    match i with
    | Instruction.opMemberDecorateOffset t m v =>
        if t = id && m = member then some v else none
    | _ => none

/-- The debug name of an id, if present in the name table. -/
def find_name (B : ShaderBinary) (id : Nat) : Option String :=
  B.instructions.findSome? fun i =>
    match i with
    | Instruction.opName t s => if t = id then some s else none
    | _ => none

/-- The debug name of member `member` of the block with id `id`, if any. -/
def find_member_name (B : ShaderBinary) (id member : Nat) : Option String :=
  B.instructions.findSome? fun i =>
    match i with
    | Instruction.opMemberName t m s => if t = id && m = member then some s else none
    | _ => none

/-! ### Byte-size computation -/

mutual

/-- Modelled from the spec: the serialized byte size of a type (section 4.1
step 3) — array size multiplies, a matrix is column-count times column size,
a struct sums its members. Runtime arrays, images and samplers have no
serialized byte size, yielding `none`. -/
def type_size : SpirType → Option Nat
  | SpirType.scalar byteSize => some byteSize
  | SpirType.vector component count => (type_size component).map (· * count)
  | SpirType.matrix column columns => (type_size column).map (· * columns)
  | SpirType.array elem len => (type_size elem).map (· * len)
  | SpirType.runtimeArray _ => none
  | SpirType.struct members => struct_size members
  | SpirType.image _ _ => none
  | SpirType.sampler => none

/-- The summed byte size of a list of struct members, if each has one. -/
def struct_size : List SpirType → Option Nat
  | [] => some 0
  | t :: ts =>
      match type_size t, struct_size ts with
      | some a, some b => some (a + b)
      | _, _ => none

end

/-! ### Descriptor classification -/

/-- Modelled from the spec: the image dimensionalities the reflector models
(codes 0-3: 1D, 2D, 3D, Cube); every other code is an unmodeled construct. -/
def supported_dim (dim : Nat) : Bool := dim < 4

/-- Modelled from the spec: descriptor kind inferred from the combination of
storage class and type (section 4.1 step 3) — a struct-typed uniform variable
is a uniform buffer, a struct-typed storage-buffer variable is a storage
buffer, an image is a sampled image or a combined image sampler depending on
whether a sampler is attached at the type level, arrays classify by their
element type, and anything else is an unsupported construct. An unmodeled
image dimensionality is an `UnsupportedConstruct` naming the dimensionality. -/
def descriptor_kind : StorageClass → SpirType → Except ReflectError VkDescriptorType
  | StorageClass.uniform, SpirType.struct _ => Except.ok VkDescriptorType.eUniformBuffer
  | StorageClass.storageBuffer, SpirType.struct _ => Except.ok VkDescriptorType.eStorageBuffer
  | _, SpirType.image dim combined =>
      if supported_dim dim then
        Except.ok (if combined then VkDescriptorType.eCombinedImageSampler
                   else VkDescriptorType.eSampledImage)
      else
        Except.error (ReflectError.unsupportedConstruct
          ("image dimensionality " ++ toString dim))
  | _, SpirType.sampler => Except.ok VkDescriptorType.eSampler
  | s, SpirType.array elem _ => descriptor_kind s elem
  | s, SpirType.runtimeArray elem => descriptor_kind s elem
  | _, _ =>
      Except.error (ReflectError.unsupportedConstruct
        "descriptor storage class and type combination")

/-- Modelled from the spec: the descriptor count — 1 unless the variable's
type is an array, in which case the array length; a runtime-sized array is
reported with the sentinel value 0 marking it unbounded. -/
def descriptor_count : SpirType → Nat
  | SpirType.array _ len => len
  | SpirType.runtimeArray _ => 0
  | _ => 1

/-- A variable is descriptor-bound when its storage class is uniform or
storage-buffer and it carries both a descriptor-set and a binding
decoration. -/
def is_descriptor_bound (B : ShaderBinary) (v : GlobalVariable) : Bool :=
  (v.storage == StorageClass.uniform || v.storage == StorageClass.storageBuffer) &&
    (find_set B v.id).isSome && (find_binding B v.id).isSome

/-- The descriptor-bound global variables of a binary, in declaration order. -/
def descriptor_bound_vars (B : ShaderBinary) : List GlobalVariable :=
  (global_variables B).filter (is_descriptor_bound B)

/-- The (set, binding) pair of a variable, reading the two decorations. -/
def set_binding_pair (B : ShaderBinary) (v : GlobalVariable) : Nat × Nat :=
  ((find_set B v.id).getD 0, (find_binding B v.id).getD 0)

/-- The (set, binding) pairs of all descriptor-bound variables. -/
def descriptor_pairs (B : ShaderBinary) : List (Nat × Nat) :=
  (descriptor_bound_vars B).map (set_binding_pair B)

/-! ### Structural validation -/

/-- Every member of every struct-typed push-constant block carries an explicit
byte-offset decoration. -/
def push_offsets_present (B : ShaderBinary) : Bool :=
  (global_variables B).all fun v =>
    match v.storage, v.ty with
    | StorageClass.pushConstant, SpirType.struct members =>
        (List.range members.length).all fun i => (find_member_offset B v.id i).isSome
    | _, _ => true

/-- Modelled from the spec: structural validation of the binary (section 4.1
step 1 and section 7) — header magic and version, no decoration referencing
a non-existent target id, no duplicate entry-point name, explicit
push-constant member offsets, and no duplicate (set, binding) pair. Returns
the first violation's message, or `none` when the binary is structurally
well-formed. -/
def structural_check (B : ShaderBinary) : Option String :=
  if B.magic ≠ spirvMagic then some "invalid magic number in module header" else
  if ¬ supported_version B.version then some "unsupported version in module header" else
  if ¬ (decoration_targets B).all (fun t => decide (t ∈ variable_ids B)) then
    some "decoration references a non-existent target id" else
  if ¬ (entry_point_names B).Nodup then some "duplicate entry point name" else
  if ¬ push_offsets_present B then
    some "push constant member without an explicit byte offset decoration" else
  if ¬ (descriptor_pairs B).Nodup then some "duplicate descriptor (set, binding) pair" else
  none

/-! ### Collection building -/

/-- Modelled from the spec: stage inputs (section 4.1 step 3) — every
input-class variable with a location decoration yields a `StageInput` whose
location comes from the decoration, whose size is computed recursively from
the type, and whose name falls back to the empty string when the debug-name
table was stripped. A type without a computable byte size is an unsupported
construct. -/
def build_stage_inputs (B : ShaderBinary) : List GlobalVariable →
    Except ReflectError (List StageInput)
  | [] => Except.ok []
  | v :: vs =>
      match v.storage, find_location B v.id with
      | StorageClass.input, some loc =>
          match type_size v.ty with
          | some sz => do
              let rest ← build_stage_inputs B vs
              Except.ok (⟨loc, sz, (find_name B v.id).getD ""⟩ :: rest)
          | none =>
              Except.error (ReflectError.unsupportedConstruct
                "stage input type without a serialized byte size")
      | _, _ => build_stage_inputs B vs

/-- Modelled from the spec: the push-constant entries of one block — one per
member, index being the member's ordinal position, offset taken verbatim from
the member's byte-offset decoration, size computed recursively from the
member's type, name from the member's debug name when present. -/
def push_constants_of_members (B : ShaderBinary) (id : Nat) :
    Nat → List SpirType → Except ReflectError (List PushConstant)
  | _, [] => Except.ok []
  | i, t :: ts =>
      match type_size t with
      | some sz => do
          let rest ← push_constants_of_members B id (i + 1) ts
          Except.ok (⟨i, sz, (find_member_offset B id i).getD 0,
                      (find_member_name B id i).getD ""⟩ :: rest)
      | none =>
          Except.error (ReflectError.unsupportedConstruct
            "push constant member type without a serialized byte size")

/-- Modelled from the spec: push constants (section 4.1 step 3) — every
push-constant-class variable whose type is a struct yields one `PushConstant`
per member; a push-constant variable of any other type is an unsupported
construct. -/
def build_push_constants (B : ShaderBinary) : List GlobalVariable →
    Except ReflectError (List PushConstant)
  | [] => Except.ok []
  | v :: vs =>
      match v.storage with
      | StorageClass.pushConstant =>
          match v.ty with
          | SpirType.struct members => do
              let here ← push_constants_of_members B v.id 0 members
              let rest ← build_push_constants B vs
              Except.ok (here ++ rest)
          | _ =>
              Except.error (ReflectError.unsupportedConstruct
                "push constant variable whose type is not a struct")
      | _ => build_push_constants B vs

/-- Modelled from the spec: descriptors (section 4.1 step 3) — every
descriptor-bound variable yields one `Descriptor` whose set and binding come
from the decorations, whose kind is inferred from storage class and type, and
whose count follows the array rule. -/
def build_descriptors (B : ShaderBinary) : List GlobalVariable →
    Except ReflectError (List Descriptor)
  | [] => Except.ok []
  | v :: vs => do
      let kind ← descriptor_kind v.storage v.ty
      let rest ← build_descriptors B vs
      Except.ok (⟨(find_set B v.id).getD 0, (find_binding B v.id).getD 0,
                  descriptor_count v.ty, kind, (find_name B v.id).getD ""⟩ :: rest)

/-- The four result collections of a successful reflection (section 6). -/
structure ReflectionResult where
  entryPoints : List String
  stageInputs : List StageInput
  pushConstants : List PushConstant
  descriptors : List Descriptor
deriving DecidableEq, Repr

/-- Modelled from the spec: the whole reflection pass of section 4.1 —
validate the structure (any violation is a `MalformedBinary` failure), then
walk the declarations once building the four collections (any unmodeled
construct is an `UnsupportedConstruct` failure); there is no partial
result. -/
def reflect (B : ShaderBinary) : Except ReflectError ReflectionResult :=
  match structural_check B with
  | some msg => Except.error (ReflectError.malformedBinary msg)
  | none => do
      let sis ← build_stage_inputs B (global_variables B)
      let pcs ← build_push_constants B (global_variables B)
      let ds ← build_descriptors B (descriptor_bound_vars B)
      Except.ok ⟨entry_point_names B, sis, pcs, ds⟩

/-! ### The word-level container

Modelled from the spec, section 6: the input is "a binary stream of 32-bit
words ... (magic number, version, bound, schema id, followed by a flat
sequence of tagged instructions/decorations)". Each instruction frame's
first word packs the word count in its upper half and the opcode in its
lower half, exactly as in the SPIR-V physical layout; a frame whose declared
word count overruns the stream is a truncated stream. -/

/-- Split the instruction stream into frames, with structural fuel bounding
the number of frames (each frame consumes at least its leading word, so a
fuel equal to the stream length always suffices). -/
def frames_fuel : Nat → List Nat → Option (List (Nat × List Nat))
  | _, [] => some []
  | 0, _ :: _ => none
  | fuel + 1, w :: ws =>
      let wordCount := w / 65536
      let opcode := w % 65536
      if wordCount = 0 then none
      else if ws.length + 1 < wordCount then none
      else
        match frames_fuel fuel (ws.drop (wordCount - 1)) with
        | some rest => some ((opcode, ws.take (wordCount - 1)) :: rest)
        | none => none

/-- Modelled from the spec: split the instruction stream into frames of
(opcode, operand words) according to each frame's declared word count;
`none` when the stream is truncated or a frame declares a word count of 0. -/
def frames (ws : List Nat) : Option (List (Nat × List Nat)) :=
  frames_fuel ws.length ws

/-- Decode a length-prefixed string from the operand words. -/
def take_string (ops : List Nat) : Option (String × List Nat) :=
  match ops with
  | [] => none
  | n :: rest =>
      if rest.length < n then none
      else some (String.mk ((rest.take n).map Char.ofNat), rest.drop n)

/-- Decode a SPIR-V storage-class code into the modelled storage classes. -/
def storage_of_code (code : Nat) : Option StorageClass :=
  if code = 1 then some StorageClass.input
  else if code = 2 then some StorageClass.uniform
  else if code = 3 then some StorageClass.output
  else if code = 9 then some StorageClass.pushConstant
  else if code = 12 then some StorageClass.storageBuffer
  else none

mutual

/-- Decode one serialized type from the operand words (prefix encoding, one
tag word per variant), with fuel bounding the recursion depth. -/
def parse_type : Nat → List Nat → Option (SpirType × List Nat)
  | 0, _ => none
  | _, [] => none
  | fuel + 1, tag :: rest =>
      if tag = 0 then
        match rest with
        | n :: r => some (SpirType.scalar n, r)
        | [] => none
      else if tag = 1 then
        match rest with
        | n :: r =>
            match parse_type fuel r with
            | some (c, r2) => some (SpirType.vector c n, r2)
            | none => none
        | [] => none
      else if tag = 2 then
        match rest with
        | n :: r =>
            match parse_type fuel r with
            | some (c, r2) => some (SpirType.matrix c n, r2)
            | none => none
        | [] => none
      else if tag = 3 then
        match rest with
        | n :: r =>
            match parse_type fuel r with
            | some (e, r2) => some (SpirType.array e n, r2)
            | none => none
        | [] => none
      else if tag = 4 then
        match parse_type fuel rest with
        | some (e, r2) => some (SpirType.runtimeArray e, r2)
        | none => none
      else if tag = 5 then
        match rest with
        | n :: r =>
            match parse_types fuel n r with
            | some (ms, r2) => some (SpirType.struct ms, r2)
            | none => none
        | [] => none
      else if tag = 6 then
        match rest with
        | d :: c :: r => some (SpirType.image d (c ≠ 0), r)
        | _ => none
      else if tag = 7 then
        some (SpirType.sampler, rest)
      else none

/-- Decode `n` consecutive serialized types from the operand words. -/
def parse_types : Nat → Nat → List Nat → Option (List SpirType × List Nat)
  | 0, _, _ => none
  | _, 0, ops => some ([], ops)
  | fuel + 1, n + 1, ops =>
      match parse_type fuel ops with
      | some (t, r) =>
          match parse_types fuel n r with
          | some (ts, r2) => some (t :: ts, r2)
          | none => none
      | none => none

end

/-- Modelled from the spec: decode one tagged frame into a declaration.
Opcodes follow SPIR-V (OpName 5, OpMemberName 6, OpEntryPoint 15,
OpVariable 59, OpDecorate 71, OpMemberDecorate 72); a frame with any other
opcode, or with operands that do not decode, is an unrelated instruction and
is skipped. -/
def decode_frame (f : Nat × List Nat) : Option Instruction :=
  let opcode := f.1
  let ops := f.2
  if opcode = 5 then
    match ops with
    | t :: rest =>
        match take_string rest with
        | some (s, _) => some (Instruction.opName t s)
        | none => none
    | [] => none
  else if opcode = 6 then
    match ops with
    | t :: m :: rest =>
        match take_string rest with
        | some (s, _) => some (Instruction.opMemberName t m s)
        | none => none
    | _ => none
  else if opcode = 15 then
    match take_string ops with
    | some (s, _) => some (Instruction.opEntryPoint s)
    | none => none
  else if opcode = 59 then
    match ops with
    | id :: code :: tyWords =>
        match storage_of_code code with
        | some sc =>
            match parse_type (tyWords.length + 1) tyWords with
            | some (ty, _) => some (Instruction.opVariable id sc ty)
            | none => none
        | none => none
    | _ => none
  else if opcode = 71 then
    match ops with
    | t :: dec :: v :: _ =>
        if dec = 30 then some (Instruction.opDecorateLocation t v)
        else if dec = 33 then some (Instruction.opDecorateBinding t v)
        else if dec = 34 then some (Instruction.opDecorateDescriptorSet t v)
        else none
    | _ => none
  else if opcode = 72 then
    match ops with
    | t :: m :: dec :: v :: _ =>
        if dec = 35 then some (Instruction.opMemberDecorateOffset t m v)
        else none
    | _ => none
  else none

/-- Modelled from the spec: parse the word stream into the container — the
four header words followed by the framed instruction stream. A stream too
short for a header, or with a truncated frame, is a `MalformedBinary`
failure. -/
def parse (ws : List Nat) : Except ReflectError ShaderBinary :=
  match ws with
  | magic :: version :: bound :: schema :: body =>
      match frames body with
      | some fs => Except.ok ⟨magic, version, bound, schema, fs.filterMap decode_frame⟩
      | none => Except.error (ReflectError.malformedBinary "truncated instruction stream")
  | _ => Except.error (ReflectError.malformedBinary "truncated module header")

/-- Modelled from the spec: reflection over the raw word sequence — parse the
container, then run the reflection pass. This is the whole computation a
`ShaderModule` construction performs on the binary it loads. -/
def reflect_words (ws : List Nat) : Except ReflectError ReflectionResult :=
  (parse ws).bind reflect

/-! ## Concrete example binaries -/

/-- A binary declaring a uniform-typed struct at set 0, binding 1 (the
`UniformBufferObject` example from `src/include/ShaderModule.h`). -/
def uniformStructBinary : ShaderBinary :=
  ⟨spirvMagic, 0x00010000, 16, 0,
   [Instruction.opEntryPoint "main",
    Instruction.opName 1 "ubo",
    Instruction.opDecorateDescriptorSet 1 0,
    Instruction.opDecorateBinding 1 1,
    Instruction.opVariable 1 StorageClass.uniform
      (SpirType.struct [SpirType.matrix (SpirType.vector (SpirType.scalar 4) 4) 4])]⟩

/-- The expected reflection of `uniformStructBinary`. -/
def uniformStructResult : ReflectionResult :=
  ⟨["main"], [], [], [⟨0, 1, 1, VkDescriptorType.eUniformBuffer, "ubo"⟩]⟩

/-- A binary declaring a combined-image-sampler array of length 4 at set 1,
binding 0. -/
def samplerArrayBinary : ShaderBinary :=
  ⟨spirvMagic, 0x00010000, 16, 0,
   [Instruction.opEntryPoint "main",
    Instruction.opName 3 "texSamplers",
    Instruction.opDecorateDescriptorSet 3 1,
    Instruction.opDecorateBinding 3 0,
    Instruction.opVariable 3 StorageClass.uniform
      (SpirType.array (SpirType.image 1 true) 4)]⟩

/-- The expected reflection of `samplerArrayBinary`. -/
def samplerArrayResult : ReflectionResult :=
  ⟨["main"], [], [], [⟨1, 0, 4, VkDescriptorType.eCombinedImageSampler, "texSamplers"⟩]⟩

/-- A binary declaring the push-constant block struct with a vec3 member at
offset 0 and a float member at offset 12. -/
def pushConstantBinary : ShaderBinary :=
  ⟨spirvMagic, 0x00010000, 16, 0,
   [Instruction.opEntryPoint "main",
    Instruction.opName 2 "constants",
    Instruction.opMemberName 2 0 "a",
    Instruction.opMemberName 2 1 "b",
    Instruction.opMemberDecorateOffset 2 0 0,
    Instruction.opMemberDecorateOffset 2 1 12,
    Instruction.opVariable 2 StorageClass.pushConstant
      (SpirType.struct [SpirType.vector (SpirType.scalar 4) 3, SpirType.scalar 4])]⟩

/-- The expected reflection of `pushConstantBinary`. -/
def pushConstantResult : ReflectionResult :=
  ⟨["main"], [], [⟨0, 12, 0, "a"⟩, ⟨1, 4, 12, "b"⟩], []⟩

/-- A structurally well-formed binary whose one descriptor-bound variable has
an unmodeled image dimensionality (code 9). -/
def badDimImageBinary : ShaderBinary :=
  ⟨spirvMagic, 0x00010000, 16, 0,
   [Instruction.opEntryPoint "main",
    Instruction.opDecorateDescriptorSet 1 0,
    Instruction.opDecorateBinding 1 0,
    Instruction.opVariable 1 StorageClass.uniform (SpirType.image 9 false)]⟩

/-- A binary with two distinct descriptor-bound variables, used to exercise
the uniqueness invariant at a concrete point. -/
def twoDescriptorBinary : ShaderBinary :=
  ⟨spirvMagic, 0x00010000, 16, 0,
   [Instruction.opEntryPoint "main",
    Instruction.opName 1 "ubo",
    Instruction.opDecorateDescriptorSet 1 0,
    Instruction.opDecorateBinding 1 1,
    Instruction.opVariable 1 StorageClass.uniform
      (SpirType.struct [SpirType.vector (SpirType.scalar 4) 4]),
    Instruction.opName 3 "texSamplers",
    Instruction.opDecorateDescriptorSet 3 1,
    Instruction.opDecorateBinding 3 0,
    Instruction.opVariable 3 StorageClass.uniform
      (SpirType.array (SpirType.image 1 true) 4)]⟩

/-- The expected reflection of `twoDescriptorBinary`. -/
def twoDescriptorResult : ReflectionResult :=
  ⟨["main"], [], [],
   [⟨0, 1, 1, VkDescriptorType.eUniformBuffer, "ubo"⟩,
    ⟨1, 0, 4, VkDescriptorType.eCombinedImageSampler, "texSamplers"⟩]⟩

/-- A binary whose decoration targets id 5 while no variable with id 5 is
declared. -/
def danglingDecorationBinary : ShaderBinary :=
  ⟨spirvMagic, 0x00010000, 8, 0, [Instruction.opDecorateLocation 5 0]⟩

/-- A binary declaring the entry-point name "main" twice. -/
def duplicateEntryBinary : ShaderBinary :=
  ⟨spirvMagic, 0x00010000, 8, 0,
   [Instruction.opEntryPoint "main", Instruction.opEntryPoint "main"]⟩

/-- A binary with two descriptor-bound variables sharing the (set, binding)
pair (0, 0). -/
def duplicatePairBinary : ShaderBinary :=
  ⟨spirvMagic, 0x00010000, 8, 0,
   [Instruction.opDecorateDescriptorSet 1 0,
    Instruction.opDecorateBinding 1 0,
    Instruction.opVariable 1 StorageClass.uniform (SpirType.struct [SpirType.scalar 4]),
    Instruction.opDecorateDescriptorSet 2 0,
    Instruction.opDecorateBinding 2 0,
    Instruction.opVariable 2 StorageClass.uniform (SpirType.struct [SpirType.scalar 4])]⟩

/-! ## Helper lemmas -/

/-- A structurally valid binary satisfies every individual structural
condition. -/
theorem structural_check_none_facts (B : ShaderBinary) (h : structural_check B = none) :
    B.magic = spirvMagic ∧ supported_version B.version = true ∧
    ((decoration_targets B).all fun t => decide (t ∈ variable_ids B)) = true ∧
    (entry_point_names B).Nodup ∧ push_offsets_present B = true ∧
    (descriptor_pairs B).Nodup := by
  unfold structural_check at h
  split_ifs at h with h1 h2 h3 h4 h5 h6
  exact ⟨not_not.mp h1, not_not.mp (by simpa using h2), not_not.mp (by simpa using h3),
    h4, not_not.mp (by simpa using h5), h6⟩

/-- A failed structural check makes the whole reflection a `MalformedBinary`
failure. -/
theorem reflect_malformed_of_check (B : ShaderBinary) (msg : String)
    (h : structural_check B = some msg) :
    reflect B = Except.error (ReflectError.malformedBinary msg) := by
  unfold reflect
  rw [h]

/-- A structural violation (the check is not `none`) makes reflection fail
with some `MalformedBinary` message. -/
theorem reflect_malformed_of_violation (B : ShaderBinary)
    (h : structural_check B ≠ none) :
    ∃ m, reflect B = Except.error (ReflectError.malformedBinary m) := by
  obtain ⟨msg, hm⟩ := Option.ne_none_iff_exists'.mp h
  exact ⟨msg, reflect_malformed_of_check B msg hm⟩

/-- A successful reflection decomposes into a passed structural check and
successful collection builds. -/
theorem reflect_ok_parts (B : ShaderBinary) (r : ReflectionResult)
    (h : reflect B = Except.ok r) :
    structural_check B = none ∧
    build_stage_inputs B (global_variables B) = Except.ok r.stageInputs ∧
    build_push_constants B (global_variables B) = Except.ok r.pushConstants ∧
    build_descriptors B (descriptor_bound_vars B) = Except.ok r.descriptors ∧
    r.entryPoints = entry_point_names B := by
  unfold reflect at h
  cases hc : structural_check B with
  | some msg => rw [hc] at h; exact absurd h (by simp)
  | none =>
      rw [hc] at h
      simp only [bind, Except.bind] at h
      cases hsi : build_stage_inputs B (global_variables B) with
      | error e => rw [hsi] at h; exact absurd h (by simp)
      | ok sis =>
          rw [hsi] at h
          cases hpc : build_push_constants B (global_variables B) with
          | error e => rw [hpc] at h; exact absurd h (by simp)
          | ok pcs =>
              rw [hpc] at h
              cases hds : build_descriptors B (descriptor_bound_vars B) with
              | error e => rw [hds] at h; exact absurd h (by simp)
              | ok ds =>
                  rw [hds] at h
                  simp only [Except.ok.injEq] at h
                  subst h
                  exact ⟨rfl, rfl, rfl, rfl, rfl⟩

/-- Every error produced by descriptor-kind inference is an
`UnsupportedConstruct`. -/
theorem descriptor_kind_error (s : StorageClass) (t : SpirType) (e : ReflectError)
    (h : descriptor_kind s t = Except.error e) :
    ∃ msg, e = ReflectError.unsupportedConstruct msg := by
  induction s, t using descriptor_kind.induct with
  | case1 members => exact absurd h (by simp [descriptor_kind])
  | case2 members => exact absurd h (by simp [descriptor_kind])
  | case3 s dim combined hdim => exact absurd h (by simp [descriptor_kind, hdim])
  | case4 s dim combined hdim =>
      simp [descriptor_kind, hdim] at h
      exact ⟨_, h.symm⟩
  | case5 s => cases s <;> simp [descriptor_kind] at h
  | case6 s elem len ih =>
      simp only [descriptor_kind] at h
      exact ih h
  | case7 s elem ih =>
      simp only [descriptor_kind] at h
      exact ih h
  | case8 t s hx1 hx2 hx3 hx4 hx5 hx6 =>
      cases t with
      | scalar n => cases s <;> simp [descriptor_kind] at h <;> exact ⟨_, h.symm⟩
      | vector c n => cases s <;> simp [descriptor_kind] at h <;> exact ⟨_, h.symm⟩
      | matrix c n => cases s <;> simp [descriptor_kind] at h <;> exact ⟨_, h.symm⟩
      | struct ms =>
          cases s with
          | uniform => exact (hx1 ms rfl rfl).elim
          | storageBuffer => exact (hx2 ms rfl rfl).elim
          | input => simp [descriptor_kind] at h; exact ⟨_, h.symm⟩
          | output => simp [descriptor_kind] at h; exact ⟨_, h.symm⟩
          | pushConstant => simp [descriptor_kind] at h; exact ⟨_, h.symm⟩
      | image dim combined => exact (hx3 dim combined rfl).elim
      | sampler => exact (hx4 rfl).elim
      | array elem len => exact (hx5 elem len rfl).elim
      | runtimeArray elem => exact (hx6 elem rfl).elim

/-- Every error produced while building stage inputs is an
`UnsupportedConstruct`. -/
theorem build_stage_inputs_error (B : ShaderBinary) (l : List GlobalVariable)
    (e : ReflectError) (h : build_stage_inputs B l = Except.error e) :
    ∃ msg, e = ReflectError.unsupportedConstruct msg := by
  induction l with
  | nil => exact absurd h (by simp [build_stage_inputs])
  | cons v vs ih =>
      unfold build_stage_inputs at h
      revert h
      cases hs : v.storage <;> cases hloc : find_location B v.id <;>
        intro h <;>
        first
          | exact ih h
          | (cases hsz : type_size v.ty with
             | none =>
                 rw [hsz] at h
                 exact ⟨_, (Except.error.inj h).symm⟩
             | some sz =>
                 rw [hsz] at h
                 simp only [bind, Except.bind] at h
                 cases hrest : build_stage_inputs B vs with
                 | error e2 =>
                     rw [hrest] at h
                     exact ih ((Except.error.inj h) ▸ hrest)
                 | ok rest => rw [hrest] at h; exact absurd h (by simp))

/-- Every error produced while building one block's push-constant entries is
an `UnsupportedConstruct`. -/
theorem push_constants_of_members_error (B : ShaderBinary) (id : Nat) :
    ∀ (i : Nat) (ms : List SpirType) (e : ReflectError),
      push_constants_of_members B id i ms = Except.error e →
      ∃ msg, e = ReflectError.unsupportedConstruct msg := by
  intro i ms
  induction ms generalizing i with
  | nil => intro e h; exact absurd h (by simp [push_constants_of_members])
  | cons t ts ih =>
      intro e h
      unfold push_constants_of_members at h
      cases hsz : type_size t with
      | none =>
          rw [hsz] at h
          exact ⟨_, (Except.error.inj h).symm⟩
      | some sz =>
          rw [hsz] at h
          simp only [bind, Except.bind] at h
          cases hrest : push_constants_of_members B id (i + 1) ts with
          | error e2 =>
              rw [hrest] at h
              exact ih (i + 1) e ((Except.error.inj h) ▸ hrest)
          | ok rest => rw [hrest] at h; exact absurd h (by simp)

/-- Every error produced while building push constants is an
`UnsupportedConstruct`. -/
theorem build_push_constants_error (B : ShaderBinary) (l : List GlobalVariable)
    (e : ReflectError) (h : build_push_constants B l = Except.error e) :
    ∃ msg, e = ReflectError.unsupportedConstruct msg := by
  induction l with
  | nil => exact absurd h (by simp [build_push_constants])
  | cons v vs ih =>
      unfold build_push_constants at h
      revert h
      cases hs : v.storage <;> intro h <;> first
        | exact ih h
        | (revert h
           cases hty : v.ty <;> intro h <;>
             first
               | exact ⟨_, (Except.error.inj h).symm⟩
               | (rename_i members
                  simp only [bind, Except.bind] at h
                  cases hm : push_constants_of_members B v.id 0 members with
                  | error e2 =>
                      rw [hm] at h
                      exact push_constants_of_members_error B v.id 0 members e
                        ((Except.error.inj h) ▸ hm)
                  | ok here =>
                      rw [hm] at h
                      cases hrest : build_push_constants B vs with
                      | error e2 =>
                          rw [hrest] at h
                          exact ih ((Except.error.inj h) ▸ hrest)
                      | ok rest => rw [hrest] at h; exact absurd h (by simp)))

/-- Every error produced while building descriptors is an
`UnsupportedConstruct`. -/
theorem build_descriptors_error (B : ShaderBinary) (l : List GlobalVariable)
    (e : ReflectError) (h : build_descriptors B l = Except.error e) :
    ∃ msg, e = ReflectError.unsupportedConstruct msg := by
  induction l with
  | nil => exact absurd h (by simp [build_descriptors])
  | cons v vs ih =>
      unfold build_descriptors at h
      simp only [bind, Except.bind] at h
      cases hk : descriptor_kind v.storage v.ty with
      | error e2 =>
          rw [hk] at h
          exact descriptor_kind_error v.storage v.ty e ((Except.error.inj h) ▸ hk)
      | ok kind =>
          rw [hk] at h
          cases hrest : build_descriptors B vs with
          | error e2 =>
              rw [hrest] at h
              exact ih ((Except.error.inj h) ▸ hrest)
          | ok rest => rw [hrest] at h; exact absurd h (by simp)

/-- The (set, binding) pairs of a successfully built descriptor list are
exactly the pairs of the variables it was built from, in order. -/
theorem build_descriptors_pairs (B : ShaderBinary) (l : List GlobalVariable)
    (ds : List Descriptor) (h : build_descriptors B l = Except.ok ds) :
    ds.map (fun d => (d.layoutSet, d.layoutBinding)) = l.map (set_binding_pair B) := by
  induction l generalizing ds with
  | nil =>
      simp only [build_descriptors, Except.ok.injEq] at h
      subst h
      rfl
  | cons v vs ih =>
      unfold build_descriptors at h
      simp only [bind, Except.bind] at h
      cases hk : descriptor_kind v.storage v.ty with
      | error e => rw [hk] at h; exact absurd h (by simp)
      | ok kind =>
          rw [hk] at h
          cases hrest : build_descriptors B vs with
          | error e => rw [hrest] at h; exact absurd h (by simp)
          | ok rest =>
              rw [hrest] at h
              simp only [Except.ok.injEq] at h
              subst h
              simp [set_binding_pair, ih rest hrest]

/-- Every descriptor in a successfully built list comes from a variable of
the input list: kind from storage class and type, set and binding from the
decorations, count from the array rule, name from the debug-name table. -/
theorem build_descriptors_mem (B : ShaderBinary) (l : List GlobalVariable)
    (ds : List Descriptor) (h : build_descriptors B l = Except.ok ds) :
    ∀ d ∈ ds, ∃ v, v ∈ l ∧
      descriptor_kind v.storage v.ty = Except.ok d.descriptorType ∧
      d.layoutSet = (find_set B v.id).getD 0 ∧
      d.layoutBinding = (find_binding B v.id).getD 0 ∧
      d.descriptorCount = descriptor_count v.ty ∧
      d.name = (find_name B v.id).getD "" := by
  induction l generalizing ds with
  | nil =>
      simp only [build_descriptors, Except.ok.injEq] at h
      subst h
      intro d hd
      cases hd
  | cons v vs ih =>
      unfold build_descriptors at h
      simp only [bind, Except.bind] at h
      cases hk : descriptor_kind v.storage v.ty with
      | error e => rw [hk] at h; exact absurd h (by simp)
      | ok kind =>
          rw [hk] at h
          cases hrest : build_descriptors B vs with
          | error e => rw [hrest] at h; exact absurd h (by simp)
          | ok rest =>
              rw [hrest] at h
              simp only [Except.ok.injEq] at h
              subst h
              intro d hd
              rcases List.mem_cons.mp hd with rfl | hd2
              · exact ⟨v, List.mem_cons_self v vs, hk, rfl, rfl, rfl, rfl⟩
              · obtain ⟨w, hw, hfacts⟩ := ih rest hrest d hd2
                exact ⟨w, List.mem_cons_of_mem v hw, hfacts⟩

/-- If some variable of the list has a failing kind inference, descriptor
building fails; an unmodeled descriptor is never silently skipped. -/
theorem build_descriptors_fails_of_mem (B : ShaderBinary) (l : List GlobalVariable)
    (v : GlobalVariable) (e : ReflectError) (hv : v ∈ l)
    (hk : descriptor_kind v.storage v.ty = Except.error e) :
    ∃ e2, build_descriptors B l = Except.error e2 := by
  induction l with
  | nil => cases hv
  | cons w ws ih =>
      rcases List.mem_cons.mp hv with rfl | hv2
      · exact ⟨e, by unfold build_descriptors; simp [bind, Except.bind, hk]⟩
      · cases hkw : descriptor_kind w.storage w.ty with
        | error e2 =>
            exact ⟨e2, by unfold build_descriptors; simp [bind, Except.bind, hkw]⟩
        | ok kind =>
            obtain ⟨e2, he2⟩ := ih hv2
            exact ⟨e2, by unfold build_descriptors; simp [bind, Except.bind, hkw, he2]⟩

/-- Every entry built from one push-constant block corresponds positionally
to a struct member: index is the ordinal, offset is read from the member's
byte-offset decoration, size from the member's type. -/
theorem push_constants_of_members_mem (B : ShaderBinary) (id : Nat) :
    ∀ (i : Nat) (ms : List SpirType) (ps : List PushConstant),
      push_constants_of_members B id i ms = Except.ok ps →
      ∀ p ∈ ps, ∃ k t, ms[k]? = some t ∧ p.index = i + k ∧
        type_size t = some p.size ∧
        p.offset = (find_member_offset B id p.index).getD 0 ∧
        p.name = (find_member_name B id p.index).getD "" := by
  intro i ms
  induction ms generalizing i with
  | nil =>
      intro ps h p hp
      simp only [push_constants_of_members, Except.ok.injEq] at h
      subst h
      cases hp
  | cons t ts ih =>
      intro ps h p hp
      unfold push_constants_of_members at h
      cases hsz : type_size t with
      | none => rw [hsz] at h; exact absurd h (by simp)
      | some sz =>
          rw [hsz] at h
          simp only [bind, Except.bind] at h
          cases hrest : push_constants_of_members B id (i + 1) ts with
          | error e => rw [hrest] at h; exact absurd h (by simp)
          | ok rest =>
              rw [hrest] at h
              simp only [Except.ok.injEq] at h
              subst h
              rcases List.mem_cons.mp hp with rfl | hp2
              · exact ⟨0, t, by simp, by simp, hsz, rfl, rfl⟩
              · obtain ⟨k, u, hget, hidx, hfacts⟩ := ih (i + 1) rest hrest p hp2
                exact ⟨k + 1, u, by simpa using hget, by omega, hfacts⟩

/-- Every push-constant entry of a successful build comes from a member of a
struct-typed push-constant-class variable. -/
theorem build_push_constants_mem (B : ShaderBinary) (l : List GlobalVariable)
    (ps : List PushConstant) (h : build_push_constants B l = Except.ok ps) :
    ∀ p ∈ ps, ∃ v ms, v ∈ l ∧ v.storage = StorageClass.pushConstant ∧
      v.ty = SpirType.struct ms ∧ ∃ t, ms[p.index]? = some t ∧
      type_size t = some p.size ∧
      p.offset = (find_member_offset B v.id p.index).getD 0 ∧
      p.name = (find_member_name B v.id p.index).getD "" := by
  induction l generalizing ps with
  | nil =>
      simp only [build_push_constants, Except.ok.injEq] at h
      subst h
      intro p hp
      cases hp
  | cons v vs ih =>
      unfold build_push_constants at h
      revert h
      cases hs : v.storage with
      | input =>
          intro h p hp
          obtain ⟨w, ms, hw, hfacts⟩ := ih ps h p hp
          exact ⟨w, ms, List.mem_cons_of_mem v hw, hfacts⟩
      | output =>
          intro h p hp
          obtain ⟨w, ms, hw, hfacts⟩ := ih ps h p hp
          exact ⟨w, ms, List.mem_cons_of_mem v hw, hfacts⟩
      | uniform =>
          intro h p hp
          obtain ⟨w, ms, hw, hfacts⟩ := ih ps h p hp
          exact ⟨w, ms, List.mem_cons_of_mem v hw, hfacts⟩
      | storageBuffer =>
          intro h p hp
          obtain ⟨w, ms, hw, hfacts⟩ := ih ps h p hp
          exact ⟨w, ms, List.mem_cons_of_mem v hw, hfacts⟩
      | pushConstant =>
          intro h
          revert h
          cases hty : v.ty with
          | scalar n => intro h; exact absurd h (by simp)
          | vector c n => intro h; exact absurd h (by simp)
          | matrix c n => intro h; exact absurd h (by simp)
          | array e2 n => intro h; exact absurd h (by simp)
          | runtimeArray e2 => intro h; exact absurd h (by simp)
          | image d c => intro h; exact absurd h (by simp)
          | sampler => intro h; exact absurd h (by simp)
          | struct members =>
              intro h
              simp only [bind, Except.bind] at h
              cases hm : push_constants_of_members B v.id 0 members with
              | error e => rw [hm] at h; exact absurd h (by simp)
              | ok here =>
                  rw [hm] at h
                  cases hrest : build_push_constants B vs with
                  | error e => rw [hrest] at h; exact absurd h (by simp)
                  | ok rest =>
                      rw [hrest] at h
                      simp only [Except.ok.injEq] at h
                      subst h
                      intro p hp
                      rcases List.mem_append.mp hp with hp1 | hp2
                      · obtain ⟨k, t, hget, hidx, hsz2, hoff, hnm⟩ :=
                          push_constants_of_members_mem B v.id 0 members here hm p hp1
                        refine ⟨v, members, List.mem_cons_self v vs, hs, hty, t, ?_,
                          hsz2, hoff, hnm⟩
                        rw [hidx]
                        simpa using hget
                      · obtain ⟨w, ms, hw, hfacts⟩ := ih rest hrest p hp2
                        exact ⟨w, ms, List.mem_cons_of_mem v hw, hfacts⟩

/-- A combined depth-stencil format is in particular a depth format. -/
theorem is_stencil_imp_depth (format : Format) (h : is_stencil_format format = true) :
    is_depth_format format = true := by
  simp only [is_stencil_format, Bool.or_eq_true, beq_iff_eq] at h
  rcases h with (h | h) | h <;> subst h <;> rfl

/-! ## Claim theorems -/

/-- C1 (counterexample): the claim that the public surface of `ShaderModule`
has an accessor returning the stage inputs recovered during reflection is
false on the code: at the concrete module state `sampleModuleState`, none of
the five public accessors of `src/include/ShaderModule.h` returns the
stage-input collection. -/
theorem stage_inputs_accessor_counterexample :
    invokeAccessor sampleModuleState ShaderModuleAccessor.getHandle ≠
        AccessorValue.stageInputList sampleModuleState.mStageInputs ∧
    invokeAccessor sampleModuleState ShaderModuleAccessor.getShaderCode ≠
        AccessorValue.stageInputList sampleModuleState.mStageInputs ∧
    invokeAccessor sampleModuleState ShaderModuleAccessor.getEntryPoints ≠
        AccessorValue.stageInputList sampleModuleState.mStageInputs ∧
    invokeAccessor sampleModuleState ShaderModuleAccessor.getPushConstants ≠
        AccessorValue.stageInputList sampleModuleState.mStageInputs ∧
    invokeAccessor sampleModuleState ShaderModuleAccessor.getDescriptors ≠
        AccessorValue.stageInputList sampleModuleState.mStageInputs := by
  refine ⟨?_, ?_, ?_, ?_, ?_⟩ <;> simp [invokeAccessor]

/-- C1 (amended): `ShaderModule` stores the stage inputs built during
reflection in the private member `mStageInputs`, but exposes no accessor for
them; the public surface exposes the entry points, the push constants and
the descriptors, and no public accessor ever returns a stage-input
sequence. -/
theorem stage_inputs_private_only :
    (∀ m : ShaderModuleState,
        invokeAccessor m ShaderModuleAccessor.getEntryPoints =
          AccessorValue.stringList m.mEntryPoints) ∧
    (∀ m : ShaderModuleState,
        invokeAccessor m ShaderModuleAccessor.getPushConstants =
          AccessorValue.pushConstantList m.mPushConstants) ∧
    (∀ m : ShaderModuleState,
        invokeAccessor m ShaderModuleAccessor.getDescriptors =
          AccessorValue.descriptorList m.mDescriptors) ∧
    ∀ (m : ShaderModuleState) (a : ShaderModuleAccessor) (ss : List StageInput),
      invokeAccessor m a ≠ AccessorValue.stageInputList ss := by
  refine ⟨fun m => rfl, fun m => rfl, fun m => rfl, ?_⟩
  intro m a ss
  cases a <;> simp [invokeAccessor]

/-- C3: `sample_count_to_flags` maps each count in {1, 2, 4, 8, 16, 32, 64}
to the matching flag bit with no log output, and silently defaults every
other count to the one-sample flag accompanied only by a log message, never
an error. -/
theorem sample_count_to_flags_spec (count : Nat) :
    (count = 1 → sample_count_to_flags count = (sampleCount_e1, [])) ∧
    (count = 2 → sample_count_to_flags count = (sampleCount_e2, [])) ∧
    (count = 4 → sample_count_to_flags count = (sampleCount_e4, [])) ∧
    (count = 8 → sample_count_to_flags count = (sampleCount_e8, [])) ∧
    (count = 16 → sample_count_to_flags count = (sampleCount_e16, [])) ∧
    (count = 32 → sample_count_to_flags count = (sampleCount_e32, [])) ∧
    (count = 64 → sample_count_to_flags count = (sampleCount_e64, [])) ∧
    (count ∉ ([1, 2, 4, 8, 16, 32, 64] : List Nat) →
      sample_count_to_flags count = (sampleCount_e1, [invalid_sample_count_message])) := by
  refine ⟨fun h => by subst h; rfl, fun h => by subst h; rfl, fun h => by subst h; rfl,
    fun h => by subst h; rfl, fun h => by subst h; rfl, fun h => by subst h; rfl,
    fun h => by subst h; rfl, fun h => ?_⟩
  obtain ⟨h1, h2, h4, h8, h16, h32, h64⟩ : count ≠ 1 ∧ count ≠ 2 ∧ count ≠ 4 ∧
      count ≠ 8 ∧ count ≠ 16 ∧ count ≠ 32 ∧ count ≠ 64 := by simpa using h
  simp [sample_count_to_flags, h1, h2, h4, h8, h16, h32, h64]

/-- C3 (witness): at the invalid count 3 the function defaults to the
one-sample flag with the log line, and at the valid count 4 it returns the
four-sample flag with no log output. -/
theorem sample_count_to_flags_spec_witness :
    sample_count_to_flags 3 = (sampleCount_e1, [invalid_sample_count_message]) ∧
    sample_count_to_flags 4 = (sampleCount_e4, []) :=
  ⟨(sample_count_to_flags_spec 3).2.2.2.2.2.2.2 (by decide),
   (sample_count_to_flags_spec 4).2.2.1 rfl⟩

/-- C9: `format_to_aspect_mask` sets the depth bit exactly for the five
formats recognized by `is_depth_format`, sets the stencil bit exactly for
the three combined formats recognized by `is_stencil_format`, returns
exactly the color bit for every other format, and never sets the stencil
bit without the depth bit. -/
theorem format_to_aspect_mask_spec (format : Format) :
    ((format_to_aspect_mask format &&& eDepth ≠ 0) ↔ is_depth_format format = true) ∧
    ((format_to_aspect_mask format &&& eStencil ≠ 0) ↔ is_stencil_format format = true) ∧
    (is_depth_format format = false → format_to_aspect_mask format = eColor) ∧
    ((format_to_aspect_mask format &&& eStencil ≠ 0) →
      format_to_aspect_mask format &&& eDepth ≠ 0) := by
  by_cases hd : is_depth_format format = true
  · by_cases hs : is_stencil_format format = true
    · have hm : format_to_aspect_mask format = eDepth ||| eStencil := by
        simp [format_to_aspect_mask, hd, hs]
      rw [hm, hd, hs]
      decide
    · have hsF : is_stencil_format format = false := by simpa using hs
      have hm : format_to_aspect_mask format = eDepth := by
        simp [format_to_aspect_mask, hd, hsF]
      rw [hm, hd, hsF]
      decide
  · have hdF : is_depth_format format = false := by simpa using hd
    have hsF : is_stencil_format format = false := by
      by_contra hc
      have := is_stencil_imp_depth format (by simpa using hc)
      simp [this] at hdF
    have hm : format_to_aspect_mask format = eColor := by
      simp [format_to_aspect_mask, hdF]
    rw [hm, hdF, hsF]
    decide

/-- C9 (witness): the mask of the combined format D24-unorm-S8-uint has both
the depth and the stencil bits, matching its depth and stencil
classification. -/
theorem format_to_aspect_mask_spec_witness :
    ((format_to_aspect_mask eD24UnormS8Uint &&& eDepth ≠ 0) ↔
        is_depth_format eD24UnormS8Uint = true) ∧
    ((format_to_aspect_mask eD24UnormS8Uint &&& eStencil ≠ 0) ↔
        is_stencil_format eD24UnormS8Uint = true) ∧
    (is_depth_format eD24UnormS8Uint = false →
        format_to_aspect_mask eD24UnormS8Uint = eColor) ∧
    ((format_to_aspect_mask eD24UnormS8Uint &&& eStencil ≠ 0) →
        format_to_aspect_mask eD24UnormS8Uint &&& eDepth ≠ 0) :=
  format_to_aspect_mask_spec eD24UnormS8Uint

/-- C10: `select_swapchain_present_mode` returns Mailbox exactly when
Mailbox occurs among the available modes, falls back to Fifo otherwise, and
never returns Immediate or FifoRelaxed. -/
theorem select_swapchain_present_mode_spec (present_modes : List PresentModeKHR) :
    (select_swapchain_present_mode present_modes = PresentModeKHR.eMailbox ↔
      PresentModeKHR.eMailbox ∈ present_modes) ∧
    (PresentModeKHR.eMailbox ∉ present_modes →
      select_swapchain_present_mode present_modes = PresentModeKHR.eFifo) ∧
    select_swapchain_present_mode present_modes ≠ PresentModeKHR.eImmediate ∧
    select_swapchain_present_mode present_modes ≠ PresentModeKHR.eFifoRelaxed := by
  induction present_modes with
  | nil => simp [select_swapchain_present_mode]
  | cons m rest ih =>
      obtain ⟨ih1, ih2, ih3, ih4⟩ := ih
      by_cases hm : m = PresentModeKHR.eMailbox
      · subst hm
        simp [select_swapchain_present_mode]
      · refine ⟨?_, ?_, ?_, ?_⟩
        · rw [select_swapchain_present_mode]
          rw [if_neg hm, ih1]
          simp [List.mem_cons, Ne.symm hm]
        · intro hnm
          have hr : PresentModeKHR.eMailbox ∉ rest :=
            fun hc => hnm (List.mem_cons_of_mem m hc)
          rw [select_swapchain_present_mode, if_neg hm]
          exact ih2 hr
        · rw [select_swapchain_present_mode, if_neg hm]
          exact ih3
        · rw [select_swapchain_present_mode, if_neg hm]
          exact ih4

/-- C10 (witness): offered only Immediate and FifoRelaxed, the selection
falls back to Fifo and returns neither of the offered modes. -/
theorem select_swapchain_present_mode_spec_witness :
    (select_swapchain_present_mode [PresentModeKHR.eImmediate, PresentModeKHR.eFifoRelaxed] =
        PresentModeKHR.eMailbox ↔
      PresentModeKHR.eMailbox ∈ [PresentModeKHR.eImmediate, PresentModeKHR.eFifoRelaxed]) ∧
    (PresentModeKHR.eMailbox ∉ [PresentModeKHR.eImmediate, PresentModeKHR.eFifoRelaxed] →
      select_swapchain_present_mode [PresentModeKHR.eImmediate, PresentModeKHR.eFifoRelaxed] =
        PresentModeKHR.eFifo) ∧
    select_swapchain_present_mode [PresentModeKHR.eImmediate, PresentModeKHR.eFifoRelaxed] ≠
      PresentModeKHR.eImmediate ∧
    select_swapchain_present_mode [PresentModeKHR.eImmediate, PresentModeKHR.eFifoRelaxed] ≠
      PresentModeKHR.eFifoRelaxed :=
  select_swapchain_present_mode_spec
    [PresentModeKHR.eImmediate, PresentModeKHR.eFifoRelaxed]

/-- C2: every successfully constructed reflection satisfies the uniqueness
invariant — no two descriptors share a (set, binding) pair and no two entry
points share a name. -/
theorem reflection_uniqueness_invariant (B : ShaderBinary) (r : ReflectionResult)
    (h : reflect B = Except.ok r) :
    (r.descriptors.map fun d => (d.layoutSet, d.layoutBinding)).Nodup ∧
    r.entryPoints.Nodup := by
  obtain ⟨hc, hsi, hpc, hds, hep⟩ := reflect_ok_parts B r h
  obtain ⟨_, _, _, hepN, _, hpairsN⟩ := structural_check_none_facts B hc
  constructor
  · rw [build_descriptors_pairs B (descriptor_bound_vars B) r.descriptors hds]
    exact hpairsN
  · rw [hep]
    exact hepN

/-- C2 (witness): the two-descriptor binary reflects successfully and its
result satisfies the uniqueness invariant. -/
theorem reflection_uniqueness_invariant_witness :
    reflect twoDescriptorBinary = Except.ok twoDescriptorResult ∧
    ((twoDescriptorResult.descriptors.map fun d => (d.layoutSet, d.layoutBinding)).Nodup ∧
      twoDescriptorResult.entryPoints.Nodup) :=
  ⟨rfl, reflection_uniqueness_invariant twoDescriptorBinary twoDescriptorResult rfl⟩

/-- C4: reflection is deterministic — running it twice on the same word
sequence yields the same outcome, and in particular structurally identical
entry-point, stage-input, push-constant and descriptor collections. -/
theorem reflection_deterministic (ws1 ws2 : List Nat) (h : ws1 = ws2) :
    reflect_words ws1 = reflect_words ws2 ∧
    ∀ r1 r2, reflect_words ws1 = Except.ok r1 → reflect_words ws2 = Except.ok r2 →
      r1.entryPoints = r2.entryPoints ∧ r1.stageInputs = r2.stageInputs ∧
      r1.pushConstants = r2.pushConstants ∧ r1.descriptors = r2.descriptors := by
  subst h
  refine ⟨rfl, ?_⟩
  intro r1 r2 h1 h2
  rw [h1] at h2
  obtain rfl := Except.ok.inj h2
  exact ⟨rfl, rfl, rfl, rfl⟩

/-- The smallest well-formed word stream: a bare header with no
instructions. -/
def minimalBinaryWords : List Nat := [0x07230203, 0x00010000, 8, 0]

/-- C4 (witness): two runs over the minimal valid word stream agree, and
their (empty) collections coincide. -/
theorem reflection_deterministic_witness :
    reflect_words minimalBinaryWords = reflect_words minimalBinaryWords ∧
    ((⟨[], [], [], []⟩ : ReflectionResult).entryPoints =
        (⟨[], [], [], []⟩ : ReflectionResult).entryPoints ∧
      (⟨[], [], [], []⟩ : ReflectionResult).stageInputs =
        (⟨[], [], [], []⟩ : ReflectionResult).stageInputs ∧
      (⟨[], [], [], []⟩ : ReflectionResult).pushConstants =
        (⟨[], [], [], []⟩ : ReflectionResult).pushConstants ∧
      (⟨[], [], [], []⟩ : ReflectionResult).descriptors =
        (⟨[], [], [], []⟩ : ReflectionResult).descriptors) :=
  ⟨(reflection_deterministic minimalBinaryWords minimalBinaryWords rfl).1,
   (reflection_deterministic minimalBinaryWords minimalBinaryWords rfl).2
     ⟨[], [], [], []⟩ ⟨[], [], [], []⟩ rfl rfl⟩

/-- C5: every structural violation — a stream too short for the header, a
truncated instruction stream, a wrong magic number, an unsupported version,
a decoration referencing a non-existent target id, a duplicate entry-point
name, or a duplicate (set, binding) pair — makes reflection fail with a
`MalformedBinary` error (and so with no result collections). -/
theorem reflection_malformed_binary_errors :
    (∀ ws : List Nat, ws.length < 4 →
      ∃ m, reflect_words ws = Except.error (ReflectError.malformedBinary m)) ∧
    (∀ (magic version bound schema : Nat) (body : List Nat), frames body = none →
      ∃ m, reflect_words (magic :: version :: bound :: schema :: body) =
        Except.error (ReflectError.malformedBinary m)) ∧
    (∀ B : ShaderBinary, B.magic ≠ spirvMagic →
      ∃ m, reflect B = Except.error (ReflectError.malformedBinary m)) ∧
    (∀ B : ShaderBinary, supported_version B.version = false →
      ∃ m, reflect B = Except.error (ReflectError.malformedBinary m)) ∧
    (∀ B : ShaderBinary, ¬ (∀ t ∈ decoration_targets B, t ∈ variable_ids B) →
      ∃ m, reflect B = Except.error (ReflectError.malformedBinary m)) ∧
    (∀ B : ShaderBinary, ¬ (entry_point_names B).Nodup →
      ∃ m, reflect B = Except.error (ReflectError.malformedBinary m)) ∧
    (∀ B : ShaderBinary, ¬ (descriptor_pairs B).Nodup →
      ∃ m, reflect B = Except.error (ReflectError.malformedBinary m)) := by
  refine ⟨?_, ?_, ?_, ?_, ?_, ?_, ?_⟩
  · intro ws hlen
    rcases ws with _ | ⟨a, _ | ⟨b, _ | ⟨c, _ | ⟨d, body⟩⟩⟩⟩
    · exact ⟨"truncated module header", rfl⟩
    · exact ⟨"truncated module header", rfl⟩
    · exact ⟨"truncated module header", rfl⟩
    · exact ⟨"truncated module header", rfl⟩
    · simp only [List.length_cons] at hlen
      omega
  · intro magic version bound schema body hfr
    refine ⟨"truncated instruction stream", ?_⟩
    simp [reflect_words, parse, hfr, bind, Except.bind]
  · intro B hb
    apply reflect_malformed_of_violation
    intro hc
    exact hb (structural_check_none_facts B hc).1
  · intro B hb
    apply reflect_malformed_of_violation
    intro hc
    have := (structural_check_none_facts B hc).2.1
    rw [hb] at this
    exact Bool.false_ne_true this
  · intro B hb
    apply reflect_malformed_of_violation
    intro hc
    have hall := (structural_check_none_facts B hc).2.2.1
    exact hb (by simpa using hall)
  · intro B hb
    apply reflect_malformed_of_violation
    intro hc
    exact hb (structural_check_none_facts B hc).2.2.2.1
  · intro B hb
    apply reflect_malformed_of_violation
    intro hc
    exact hb (structural_check_none_facts B hc).2.2.2.2.2

/-- C5 (witness): each violation kind exhibited at a concrete input — the
empty stream, a frame overrunning the stream, magic 0, version 0, a
decoration targeting the undeclared id 5, the entry-point name "main"
declared twice, and two descriptors both at (set 0, binding 0). -/
theorem reflection_malformed_binary_errors_witness :
    (∃ m, reflect_words [] = Except.error (ReflectError.malformedBinary m)) ∧
    (∃ m, reflect_words (0x07230203 :: 0x00010000 :: 8 :: 0 :: [131073]) =
      Except.error (ReflectError.malformedBinary m)) ∧
    (∃ m, reflect ⟨0, 0x00010000, 8, 0, []⟩ =
      Except.error (ReflectError.malformedBinary m)) ∧
    (∃ m, reflect ⟨spirvMagic, 0, 8, 0, []⟩ =
      Except.error (ReflectError.malformedBinary m)) ∧
    (∃ m, reflect danglingDecorationBinary =
      Except.error (ReflectError.malformedBinary m)) ∧
    (∃ m, reflect duplicateEntryBinary =
      Except.error (ReflectError.malformedBinary m)) ∧
    (∃ m, reflect duplicatePairBinary =
      Except.error (ReflectError.malformedBinary m)) :=
  ⟨reflection_malformed_binary_errors.1 [] (by decide),
   reflection_malformed_binary_errors.2.1 0x07230203 0x00010000 8 0 [131073] rfl,
   reflection_malformed_binary_errors.2.2.1 ⟨0, 0x00010000, 8, 0, []⟩ (by decide),
   reflection_malformed_binary_errors.2.2.2.1 ⟨spirvMagic, 0, 8, 0, []⟩ (by decide),
   reflection_malformed_binary_errors.2.2.2.2.1 danglingDecorationBinary (by decide),
   reflection_malformed_binary_errors.2.2.2.2.2.1 duplicateEntryBinary (by decide),
   reflection_malformed_binary_errors.2.2.2.2.2.2 duplicatePairBinary (by decide)⟩

/-- C6: a structurally well-formed binary with a descriptor-bound variable
of an unmodeled image dimensionality makes reflection fail with an
`UnsupportedConstruct` error; it never silently drops the construct and
never returns a (partial) result. -/
theorem reflection_unsupported_construct_errors (B : ShaderBinary)
    (v : GlobalVariable) (dim : Nat) (combined : Bool)
    (hok : structural_check B = none)
    (hv : v ∈ descriptor_bound_vars B)
    (hty : v.ty = SpirType.image dim combined)
    (hdim : supported_dim dim = false) :
    reflect badDimImageBinary =
      Except.error (ReflectError.unsupportedConstruct "image dimensionality 9") ∧
    (∃ s, reflect B = Except.error (ReflectError.unsupportedConstruct s)) ∧
    ∀ r, reflect B ≠ Except.ok r := by
  refine ⟨rfl, ?_⟩
  have hk : descriptor_kind v.storage v.ty =
      Except.error (ReflectError.unsupportedConstruct
        ("image dimensionality " ++ toString dim)) := by
    rw [hty]
    cases v.storage <;> simp [descriptor_kind, hdim]
  obtain ⟨e2, he2⟩ :=
    build_descriptors_fails_of_mem B (descriptor_bound_vars B) v _ hv hk
  have hrB : ∃ s, reflect B = Except.error (ReflectError.unsupportedConstruct s) := by
    cases hsi : build_stage_inputs B (global_variables B) with
    | error e =>
        obtain ⟨s, hs⟩ := build_stage_inputs_error B _ e hsi
        exact ⟨s, by unfold reflect; rw [hok]; simp [bind, Except.bind, hsi, hs]⟩
    | ok sis =>
        cases hpc : build_push_constants B (global_variables B) with
        | error e =>
            obtain ⟨s, hs⟩ := build_push_constants_error B _ e hpc
            exact ⟨s, by unfold reflect; rw [hok]; simp [bind, Except.bind, hsi, hpc, hs]⟩
        | ok pcs =>
            obtain ⟨s, hs⟩ := build_descriptors_error B _ e2 he2
            exact ⟨s, by
              unfold reflect
              rw [hok]
              simp [bind, Except.bind, hsi, hpc, he2, hs]⟩
  refine ⟨hrB, ?_⟩
  intro r hr
  obtain ⟨s, hs⟩ := hrB
  rw [hr] at hs
  exact absurd hs (by simp)

/-- C6 (witness): the concrete binary with an image of dimensionality code 9
fails reflection with an `UnsupportedConstruct` error and has no successful
result. -/
theorem reflection_unsupported_construct_errors_witness :
    reflect badDimImageBinary =
      Except.error (ReflectError.unsupportedConstruct "image dimensionality 9") ∧
    (∃ s, reflect badDimImageBinary =
      Except.error (ReflectError.unsupportedConstruct s)) ∧
    ∀ r, reflect badDimImageBinary ≠ Except.ok r :=
  reflection_unsupported_construct_errors badDimImageBinary
    ⟨1, StorageClass.uniform, SpirType.image 9 false⟩ 9 false
    rfl (List.Mem.head _) rfl rfl

/-- C7: descriptor counts and kinds — a uniform-typed struct at set 0,
binding 1 yields the descriptor (0, 1, count 1, uniform-buffer); a sampler
array of length 4 at set 1, binding 0 yields count 4; and in every
successful reflection each descriptor's count is the array length of its
variable's type (0 marking a runtime-sized array as unbounded, 1 for
non-arrays) and its kind follows from storage class and type. -/
theorem descriptor_count_and_kind_spec :
    reflect uniformStructBinary = Except.ok uniformStructResult ∧
    reflect samplerArrayBinary = Except.ok samplerArrayResult ∧
    ∀ (B : ShaderBinary) (r : ReflectionResult), reflect B = Except.ok r →
      ∀ d ∈ r.descriptors, ∃ v, v ∈ descriptor_bound_vars B ∧
        descriptor_kind v.storage v.ty = Except.ok d.descriptorType ∧
        d.layoutSet = (find_set B v.id).getD 0 ∧
        d.layoutBinding = (find_binding B v.id).getD 0 ∧
        d.descriptorCount = (match v.ty with
          | SpirType.array _ len => len
          | SpirType.runtimeArray _ => 0
          | _ => 1) := by
  refine ⟨rfl, rfl, ?_⟩
  intro B r h d hd
  obtain ⟨hc, hsi, hpc, hds, hep⟩ := reflect_ok_parts B r h
  obtain ⟨v, hv, hkind, hset, hbind, hcount, hname⟩ :=
    build_descriptors_mem B (descriptor_bound_vars B) r.descriptors hds d hd
  refine ⟨v, hv, hkind, hset, hbind, ?_⟩
  rw [hcount]
  cases v.ty <;> rfl

/-- C7 (witness): the general descriptor rule instantiated at the concrete
sampler-array binary and its one descriptor of count 4. -/
theorem descriptor_count_and_kind_spec_witness :
    reflect samplerArrayBinary = Except.ok samplerArrayResult ∧
    ∃ v, v ∈ descriptor_bound_vars samplerArrayBinary ∧
      descriptor_kind v.storage v.ty = Except.ok
        (⟨1, 0, 4, VkDescriptorType.eCombinedImageSampler, "texSamplers"⟩ :
          Descriptor).descriptorType ∧
      (⟨1, 0, 4, VkDescriptorType.eCombinedImageSampler, "texSamplers"⟩ :
          Descriptor).layoutSet = (find_set samplerArrayBinary v.id).getD 0 ∧
      (⟨1, 0, 4, VkDescriptorType.eCombinedImageSampler, "texSamplers"⟩ :
          Descriptor).layoutBinding = (find_binding samplerArrayBinary v.id).getD 0 ∧
      (⟨1, 0, 4, VkDescriptorType.eCombinedImageSampler, "texSamplers"⟩ :
          Descriptor).descriptorCount = (match v.ty with
        | SpirType.array _ len => len
        | SpirType.runtimeArray _ => 0
        | _ => 1) :=
  ⟨descriptor_count_and_kind_spec.2.1,
   descriptor_count_and_kind_spec.2.2 samplerArrayBinary samplerArrayResult
     descriptor_count_and_kind_spec.2.1
     ⟨1, 0, 4, VkDescriptorType.eCombinedImageSampler, "texSamplers"⟩
     (by simp [samplerArrayResult])⟩

/-- C8: the push-constant block struct with a vec3 member at explicit offset
0 and a float member at explicit offset 12 reflects to exactly two entries
with sizes 12 and 4 and offsets 0 and 12; and in every successful reflection
each entry's offset is taken verbatim from its member's byte-offset
decoration and its size is computed recursively from the member's type. -/
theorem push_constant_layout_spec :
    reflect pushConstantBinary = Except.ok pushConstantResult ∧
    pushConstantResult.pushConstants = [⟨0, 12, 0, "a"⟩, ⟨1, 4, 12, "b"⟩] ∧
    ∀ (B : ShaderBinary) (r : ReflectionResult), reflect B = Except.ok r →
      ∀ p ∈ r.pushConstants, ∃ v ms t, v ∈ global_variables B ∧
        v.storage = StorageClass.pushConstant ∧ v.ty = SpirType.struct ms ∧
        ms[p.index]? = some t ∧ type_size t = some p.size ∧
        find_member_offset B v.id p.index = some p.offset := by
  refine ⟨rfl, rfl, ?_⟩
  intro B r h p hp
  obtain ⟨hc, hsi, hpc, hds, hep⟩ := reflect_ok_parts B r h
  obtain ⟨v, ms, hv, hstor, hty, t, hget, hsz, hoff, hnm⟩ :=
    build_push_constants_mem B (global_variables B) r.pushConstants hpc p hp
  obtain ⟨_, _, _, _, hoffsets, _⟩ := structural_check_none_facts B hc
  have hall := List.all_eq_true.mp hoffsets v hv
  rw [hstor, hty] at hall
  have hall2 : (List.range ms.length).all
      (fun i => (find_member_offset B v.id i).isSome) = true := hall
  have hlt : p.index < ms.length := by
    rcases List.getElem?_eq_some.mp hget with ⟨hlt, _⟩
    exact hlt
  have hsome := List.all_eq_true.mp hall2 p.index (List.mem_range.mpr hlt)
  obtain ⟨o, ho⟩ := Option.isSome_iff_exists.mp hsome
  refine ⟨v, ms, t, hv, hstor, hty, hget, hsz, ?_⟩
  rw [ho] at hoff ⊢
  simpa using hoff.symm

/-- C8 (witness): the general offset-and-size rule instantiated at the
concrete push-constant binary and its second entry (size 4, offset 12). -/
theorem push_constant_layout_spec_witness :
    reflect pushConstantBinary = Except.ok pushConstantResult ∧
    ∃ v ms t, v ∈ global_variables pushConstantBinary ∧
      v.storage = StorageClass.pushConstant ∧ v.ty = SpirType.struct ms ∧
      ms[(⟨1, 4, 12, "b"⟩ : PushConstant).index]? = some t ∧
      type_size t = some (⟨1, 4, 12, "b"⟩ : PushConstant).size ∧
      find_member_offset pushConstantBinary v.id (⟨1, 4, 12, "b"⟩ : PushConstant).index =
        some (⟨1, 4, 12, "b"⟩ : PushConstant).offset :=
  ⟨push_constant_layout_spec.1,
   push_constant_layout_spec.2.2 pushConstantBinary pushConstantResult
     push_constant_layout_spec.1 ⟨1, 4, 12, "b"⟩ (by simp [pushConstantResult])⟩

end VulkanToolkit
